import Mathlib

/-!
Shallow embedding of the medication/pharmacy locator server (`src/server.js`)
for verification of its specification claims.

Modelling conventions:
* JavaScript strings are modelled as `Str := List Nat`, lists of UTF-16 code
  units (`charCodeAt` values).  All string literals appearing in the server
  are ASCII, so the code-unit view is exact for them.
* JavaScript numbers that can be `NaN` are modelled by `JSNum` (`nan` or a
  rational).  The server's arithmetic on these values stays inside exact
  decimal rationals, so `ℚ` is a faithful carrier; `Infinity` never arises
  in the modelled computations except as the `?? Infinity` sort key, which
  is modelled by `WithTop ℚ`.
* Upstream HTTP interactions are modelled by an `Env` record holding, for
  each upstream call the handler can make, the outcome of that call
  (`Except AxiosErr _`): the data the server extracts from the response
  (after the `|| []` / `?.` defaulting it performs), or the axios error.
  The in-process memoisation caches (`cache.geocode`, `cache.rxnorm`) only
  replay previously computed values of these pure extractions, so they are
  not modelled separately.
-/

/-- JS string as a list of UTF-16 code units (`charCodeAt` values). -/
abbrev Str := List Nat

/-- Encode an ASCII Lean string literal as a `Str`. -/
def ofStr (s : String) : Str := s.data.map Char.toNat

/-- Whitespace code units removed by `String.prototype.trim` (ASCII part). -/
def isWS (c : Nat) : Bool := c = 32 || c = 9 || c = 10 || c = 13 || c = 11 || c = 12

/-- Model of `String.prototype.trim`: drop leading and trailing whitespace. -/
def jsTrim (s : Str) : Str := ((s.dropWhile isWS).reverse.dropWhile isWS).reverse

/-- Model of `String.prototype.toLowerCase` restricted to ASCII letters (the only
case-mapping the modelled comparisons can encounter on the server's data). -/
def jsLower (s : Str) : Str := s.map (fun c => if 65 ≤ c ∧ c ≤ 90 then c + 32 else c)

/-- JS `a || b` on strings: the empty string is falsy. -/
def strOr (a : Option Str) (b : Str) : Str :=
  match a with
  | none => b
  | some s => if s = [] then b else s

/-- JS number that may be `NaN`. -/
inductive JSNum where
  | nan : JSNum
  | num : ℚ → JSNum
deriving DecidableEq

/-- JS multiplication: `NaN` is absorbing. -/
def jsMul : JSNum → JSNum → JSNum
  | JSNum.num a, JSNum.num b => JSNum.num (a * b)
  | _, _ => JSNum.nan

/-- Model of `Math.min`: returns `NaN` if any argument is `NaN`. -/
def jsMin : JSNum → JSNum → JSNum
  | JSNum.num a, JSNum.num b => JSNum.num (min a b)
  | _, _ => JSNum.nan

/-- Model of `Math.max`: returns `NaN` if any argument is `NaN`. -/
def jsMax : JSNum → JSNum → JSNum
  | JSNum.num a, JSNum.num b => JSNum.num (max a b)
  | _, _ => JSNum.nan

/-- JS comparison `p >= b` where `p` is a plain number and `b` may be `NaN`
(any comparison with `NaN` is false). -/
def jsGeNum (p : ℚ) : JSNum → Bool
  | JSNum.nan => false
  | JSNum.num b => decide (b ≤ p)

/-- JS comparison `p <= b` where `p` is a plain number and `b` may be `NaN`. -/
def jsLeNum (p : ℚ) : JSNum → Bool
  | JSNum.nan => false
  | JSNum.num b => decide (p ≤ b)

/-! ## Deterministic Synthesizer (`seedNum`, `simulatePrice`, `simulateStock`) -/

/-- Model of `seedNum(str)`: polynomial rolling hash, multiplier 31, with `>>> 0`
forcing unsigned 32-bit wraparound at each step.  (`h * 31 + c` stays below
`2^37`, exactly representable in a JS double, so reducing mod `2^32` each
iteration is the exact semantics of `(h * 31 + c) >>> 0`.) -/
def seedNum (s : Str) : Nat :=
  s.foldl (fun h c => (h * 31 + c) % 2 ^ 32) 0

/-- Model of `simulatePrice(rxcui, placeId)`.  `base + variation` has exactly two
decimal places and magnitude far below any double-rounding threshold, so
`Number((base + variation).toFixed(2))` is the identity on its exact value;
the rational returned here is that value. -/
def simulatePrice (rxcui placeId : Str) : ℚ :=
  let base : ℚ := 10 + (seedNum rxcui % 40 : ℕ)
  let variation : ℚ := (seedNum placeId % 200 : ℕ) / 100
  base + variation

/-- Stock classification returned by `simulateStock`. -/
inductive Availability where
  | out_of_stock : Availability
  | low_stock : Availability
  | in_stock : Availability
deriving DecidableEq

/-- Model of `simulateStock(placeId)`. -/
def simulateStock (placeId : Str) : Availability :=
  let v := seedNum placeId % 100
  if v < 10 then Availability.out_of_stock
  else if v < 35 then Availability.low_stock
  else Availability.in_stock

/-! ## Medicine Resolver (`rxnormLookup`) -/

/-- An entry of `conceptGroup[_].conceptProperties` in the RxNorm drugs
response: every candidate carries its `rxcui` code and display `name`. -/
structure Candidate where
  rxcui : Str
  name : Str
deriving DecidableEq

/-- The resolver's payload `{ rxcui, name, suggestions }`. -/
structure DrugResolution where
  rxcui : Option Str
  name : Option Str
  suggestions : List Str
deriving DecidableEq

/-- Inner loop of the candidate scan in `rxnormLookup`: for each `p`, a
null `best` is replaced by `p`, and an exact (case-insensitive) name match
sets `best = p` and breaks out of this group's loop. -/
def scanProps (key : Str) : Option Candidate → List Candidate → Option Candidate
  | best, [] => best
  | best, p :: rest =>
      if jsLower p.name = key then some p
      else scanProps key (if best.isNone then some p else best) rest

/-- Outer loop of the candidate scan: fold `scanProps` over the concept
groups (the `break` in the source exits only the inner loop). -/
def findBest (key : Str) (groups : List (List Candidate)) : Option Candidate :=
  groups.foldl (fun best props => scanProps key best props) none

/-- An axios error: `err.response` is present (with status and body) for
HTTP-level failures and absent for network-level ones. -/
structure AxiosErr where
  response : Option (Nat × Str)
  message : Str
deriving DecidableEq

/-- A thrown JS `Error` as the handler's catch block sees it. -/
structure JsError where
  message : Str
  response : Option (Nat × Str)
  cause : Option AxiosErr
deriving DecidableEq

/-- Model of `upstreamError(message, err)`: a fresh `new Error(message)` with the
axios error attached as `cause`.  A fresh `Error` has no `response`
property, so `response := none` — the axios response never reaches
`extractError` through this wrapper. -/
def upstreamError (message : Str) (err : AxiosErr) : JsError :=
  { message := message, response := none, cause := some err }

/-- The JSON body + status produced by `extractError`. -/
structure ErrorDetails where
  status : Nat
  error : Str
  data : Option Str
deriving DecidableEq

/-- Model of `extractError(err)`. -/
def extractError (e : JsError) : ErrorDetails :=
  match e.response with
  | some (st, d) => { status := st, error := ofStr "Upstream error", data := some d }
  | none => { status := 502, error := e.message, data := none }

/-- The error outcomes the `/api/search` handler can produce. -/
inductive ApiError where
  | missingMed : ApiError
  | missingLocation : ApiError
  | invalidMedicine : List Str → ApiError
  | locationNotFound : ApiError
  | upstream : JsError → ApiError
deriving DecidableEq

/-- Status and JSON body sent for each error outcome, mirroring the
`res.status(...).json(...)` call sites (for `upstream`, the catch block:
`res.status(details.status || 502).json(details)`, where JS `0` is falsy). -/
structure ErrBody where
  status : Nat
  error : Str
  suggestions : Option (List Str)
  data : Option Str
deriving DecidableEq

/-- Map an error outcome to the HTTP response the handler sends. -/
def respondError : ApiError → ErrBody
  | ApiError.missingMed =>
      { status := 400, error := ofStr "Missing parameter: med", suggestions := none, data := none }
  | ApiError.missingLocation =>
      { status := 400, error := ofStr "Missing parameter: location", suggestions := none, data := none }
  | ApiError.invalidMedicine sugg =>
      { status := 400, error := ofStr "Invalid medicine name", suggestions := some sugg, data := none }
  | ApiError.locationNotFound =>
      { status := 404, error := ofStr "Location not found", suggestions := none, data := none }
  | ApiError.upstream e =>
      let d := extractError e
      { status := if d.status = 0 then 502 else d.status,
        error := d.error, suggestions := none, data := d.data }

/-- Model of `{lat, lon}` coordinate pair from a geocoding provider. -/
structure Coord where
  lat : ℚ
  lon : ℚ
deriving DecidableEq

/-- A pharmacy record as built by `findPharmacies` (either provider path);
`id` is the string form `String(p.id)` used by the synthesizer. -/
structure Place where
  id : Str
  name : Str
  address : Option Str
  phone : Option Str
  distance_km : Option ℚ
  lat : Option ℚ
  lon : Option ℚ
deriving DecidableEq

/-- A place enriched with synthesized price and availability. -/
structure Item where
  place : Place
  price_usd : ℚ
  availability : Availability
deriving DecidableEq

/-- Outcomes of the upstream calls the handler can make during one request:
for each call, the data the server extracts from the response (after its
`|| []` / `?.` defaulting) or the axios error.  `places` is a function of
the radius argument the handler passes to `findPharmacies`. -/
structure Env where
  drugGroups : Except AxiosErr (List (List Candidate))
  suggestions : Except AxiosErr (List Str)
  geocode : Except AxiosErr (Option Coord)
  places : JSNum → Except AxiosErr (List Place)

/-- Model of `rxnormLookup(med)` (cache omitted: it replays the same pure value). -/
def rxnormLookup (med : Str) (env : Env) : Except ApiError DrugResolution :=
  let key := jsLower (jsTrim med)
  match env.drugGroups with
  | Except.error e =>
      Except.error (ApiError.upstream (upstreamError (ofStr "RxNorm lookup failed") e))
  | Except.ok groups =>
      match findBest key groups with
      | some best => Except.ok ⟨some best.rxcui, some best.name, []⟩
      | none =>
          match env.suggestions with
          | Except.error e =>
              Except.error (ApiError.upstream (upstreamError (ofStr "RxNorm lookup failed") e))
          | Except.ok suggestions => Except.ok ⟨none, none, suggestions⟩

/-! ## The `/api/search` handler -/

/-- Raw query parameters of one request.  String-valued parameters are the
raw strings (or `none` when absent).  For the numeric parameters the model
carries the value of JS `Number(raw)` for a non-empty raw string — a
rational, or `nan` when the string does not parse — and `none` exactly when
the parameter is absent or the empty string (the falsy case, in which
`radius_km` falls back to `10` and `price_min`/`price_max` to `null`). -/
structure Query where
  med : Option Str
  location : Option Str
  radius_km : Option JSNum
  price_min : Option JSNum
  price_max : Option JSNum
  stock : Option Str
  sort : Option Str

/-- Model of `const med = (req.query.med || '').toString().trim()`. -/
def medOf (q : Query) : Str := jsTrim (strOr q.med (ofStr ""))

/-- Model of `const location = (req.query.location || '').toString().trim()`. -/
def locationOf (q : Query) : Str := jsTrim (strOr q.location (ofStr ""))

/-- Model of `const radiusKm = Number(req.query.radius_km || 10)`. -/
def radiusKmOf (q : Query) : JSNum := q.radius_km.getD (JSNum.num 10)

/-- Model of `const stockFilter = (req.query.stock || 'any').toString()`. -/
def stockOf (q : Query) : Str := strOr q.stock (ofStr "any")

/-- Model of `const sortBy = (req.query.sort || 'distance').toString()`. -/
def sortOf (q : Query) : Str := strOr q.sort (ofStr "distance")

/-- Model of `Math.max(1000, Math.min(50000, radiusKm * 1000))` — the radius the
handler passes to `findPharmacies`. -/
def radiusMeters (radiusKm : JSNum) : JSNum :=
  jsMax (JSNum.num 1000) (jsMin (JSNum.num 50000) (jsMul radiusKm (JSNum.num 1000)))

/-- JS falsiness of the `rxcui` field (`!drug.rxcui`): null or `''`. -/
def strFalsy : Option Str → Bool
  | none => true
  | some s => decide (s = [])

/-- Enrichment step: attach `price_usd` and `availability`. -/
def enrichPlace (rxcui : Str) (p : Place) : Item :=
  ⟨p, simulatePrice rxcui p.id, simulateStock p.id⟩

/-- Model of `if (priceMin !== null) items = items.filter(i => i.price_usd >= priceMin)`. -/
def filterPriceMin (priceMin : Option JSNum) (items : List Item) : List Item :=
  match priceMin with
  | none => items
  | some b => items.filter (fun i => jsGeNum i.price_usd b)

/-- Model of `if (priceMax !== null) items = items.filter(i => i.price_usd <= priceMax)`. -/
def filterPriceMax (priceMax : Option JSNum) (items : List Item) : List Item :=
  match priceMax with
  | none => items
  | some b => items.filter (fun i => jsLeNum i.price_usd b)

/-- Model of `if (stockFilter === 'in_stock') items = items.filter(...)`. -/
def stockStepIn (stockFilter : Str) (items : List Item) : List Item :=
  if stockFilter = ofStr "in_stock" then
    items.filter (fun i => i.availability = Availability.in_stock)
  else items

/-- Model of `if (stockFilter === 'low_stock') items = items.filter(...)`. -/
def stockStepLow (stockFilter : Str) (items : List Item) : List Item :=
  if stockFilter = ofStr "low_stock" then
    items.filter (fun i => i.availability = Availability.low_stock)
  else items

/-- The two sequential stock-filter statements. -/
def filterStock (stockFilter : Str) (items : List Item) : List Item :=
  stockStepLow stockFilter (stockStepIn stockFilter items)

/-- Sort key of the distance comparator: `a.distance_km ?? Infinity`. -/
def distKey (i : Item) : WithTop ℚ :=
  match i.place.distance_km with
  | none => ⊤
  | some d => (d : WithTop ℚ)

/-- Order induced by the comparator `(a,b) => (a.distance_km ?? Infinity) -
(b.distance_km ?? Infinity)` (`Infinity - Infinity` is `NaN`, which the
sort treats as equality — consistent with `⊤ ≤ ⊤`). -/
def distLe (a b : Item) : Prop := distKey a ≤ distKey b

/-- Order induced by the comparator `(a,b) => a.price_usd - b.price_usd`. -/
def priceAscLe (a b : Item) : Prop := a.price_usd ≤ b.price_usd

/-- Order induced by the comparator `(a,b) => b.price_usd - a.price_usd`. -/
def priceDescLe (a b : Item) : Prop := b.price_usd ≤ a.price_usd

instance : DecidableRel distLe :=
  fun a b => inferInstanceAs (Decidable (distKey a ≤ distKey b))

instance : IsTotal Item distLe := ⟨fun _ _ => le_total _ _⟩

instance : IsTrans Item distLe := ⟨fun _ _ _ h1 h2 => le_trans h1 h2⟩

instance : DecidableRel priceAscLe :=
  fun a b => inferInstanceAs (Decidable (a.price_usd ≤ b.price_usd))

instance : IsTotal Item priceAscLe := ⟨fun _ _ => le_total _ _⟩

instance : IsTrans Item priceAscLe := ⟨fun _ _ _ h1 h2 => le_trans h1 h2⟩

instance : DecidableRel priceDescLe :=
  fun a b => inferInstanceAs (Decidable (b.price_usd ≤ a.price_usd))

instance : IsTotal Item priceDescLe := ⟨fun _ _ => le_total _ _⟩

instance : IsTrans Item priceDescLe := ⟨fun _ _ _ h1 h2 => le_trans h2 h1⟩

/-- The sort step (lines 198–200).  `Array.prototype.sort` with a
consistent numeric comparator is a stable sort by `cmp(a,b) ≤ 0`
(ES2019+); `List.insertionSort` is that stable sort.  An unrecognized
`sortBy` value matches none of the three branches and the list is left
untouched. -/
def sortItems (sortBy : Str) (items : List Item) : List Item :=
  if sortBy = ofStr "price_asc" then items.insertionSort priceAscLe
  else if sortBy = ofStr "price_desc" then items.insertionSort priceDescLe
  else if sortBy = ofStr "distance" then items.insertionSort distLe
  else items

/-- The JSON body of a successful response. -/
structure SearchResult where
  medName : Option Str
  rxcui : Option Str
  locationText : Str
  lat : ℚ
  lon : ℚ
  total : Nat
  items : List Item
deriving DecidableEq

/-- The `/api/search` handler: validation, the three upstream stages,
enrichment, the filters, the sort, and assembly of the response. -/
def handleSearch (q : Query) (env : Env) : Except ApiError SearchResult :=
  let med := medOf q
  let location := locationOf q
  if med = [] then Except.error ApiError.missingMed
  else if location = [] then Except.error ApiError.missingLocation
  else
    match rxnormLookup med env with
    | Except.error e => Except.error e
    | Except.ok drug =>
      if strFalsy drug.rxcui then Except.error (ApiError.invalidMedicine drug.suggestions)
      else
        match env.geocode with
        | Except.error e =>
            Except.error (ApiError.upstream (upstreamError (ofStr "Geocoding failed") e))
        | Except.ok none => Except.error ApiError.locationNotFound
        | Except.ok (some geo) =>
          match env.places (radiusMeters (radiusKmOf q)) with
          | Except.error e =>
              Except.error (ApiError.upstream (upstreamError (ofStr "Pharmacy search failed") e))
          | Except.ok places =>
            let items0 := places.map (enrichPlace (drug.rxcui.getD []))
            let items1 := filterPriceMin q.price_min items0
            let items2 := filterPriceMax q.price_max items1
            let items3 := filterStock (stockOf q) items2
            let items4 := sortItems (sortOf q) items3
            Except.ok { medName := drug.name, rxcui := drug.rxcui,
                        locationText := location, lat := geo.lat, lon := geo.lon,
                        total := items4.length, items := items4 }

/-- HTTP status of the handler's response (`res.json` without
`res.status` sends 200). -/
def apiStatus (res : Except ApiError SearchResult) : Nat :=
  match res with
  | Except.ok _ => 200
  | Except.error e => (respondError e).status

/-! ## Claim checks: C1 and C8 -/

/-- Stepwise 32-bit truncation in `seedNum` computes the mathematical
polynomial hash reduced mod `2^32` once: the `>>> 0` at every iteration is
the unsigned 32-bit wraparound of the plain polynomial rolling hash. -/
theorem seedNum_eq_polyHash (s : Str) :
    seedNum s = (s.foldl (fun h c => h * 31 + c) 0) % 2 ^ 32 := by
  suffices key : ∀ a : ℕ,
      s.foldl (fun h c => (h * 31 + c) % 2 ^ 32) (a % 2 ^ 32) =
        (s.foldl (fun h c => h * 31 + c) a) % 2 ^ 32 by
    simpa [seedNum] using key 0
  induction s with
  | nil => intro a; rfl
  | cons c t ih =>
      intro a
      simp only [List.foldl_cons]
      have hstep : (a % 2 ^ 32 * 31 + c) % 2 ^ 32 = (a * 31 + c) % 2 ^ 32 := by
        have h232 : (2 : ℕ) ^ 32 = 4294967296 := by norm_num
        rw [h232]
        omega
      rw [hstep, ← ih (a * 31 + c)]

/-- C1: the synthesized price equals 10 + (hash(drugId) mod 40) +
(hash(facilityId) mod 200)/100, where the hash is the polynomial rolling
hash with multiplier 31 under unsigned 32-bit wraparound; it always lies
in [10.00, 52.00); the function is pure, so repeated calls with identical
inputs return identical outputs by definition.  The last conjunct
certifies the "rounded to 2 decimals" clause: the value is an exact
integer count of cents, so the 2-decimal rounding in the source is the
identity. -/
theorem C1_price_formula_and_range (drugId facilityId : Str) :
    simulatePrice drugId facilityId =
      10 + ((seedNum drugId % 40 : ℕ) : ℚ) + ((seedNum facilityId % 200 : ℕ) : ℚ) / 100 ∧
    seedNum drugId = (drugId.foldl (fun h c => h * 31 + c) 0) % 2 ^ 32 ∧
    10 ≤ simulatePrice drugId facilityId ∧
    simulatePrice drugId facilityId < 52 ∧
    ∃ cents : ℕ, simulatePrice drugId facilityId = (cents : ℚ) / 100 := by
  have hb : (seedNum drugId % 40 : ℕ) ≤ 39 :=
    Nat.le_of_lt_succ (Nat.mod_lt _ (by norm_num))
  have hv : (seedNum facilityId % 200 : ℕ) ≤ 199 :=
    Nat.le_of_lt_succ (Nat.mod_lt _ (by norm_num))
  refine ⟨by simp [simulatePrice, add_assoc], seedNum_eq_polyHash drugId, ?_, ?_, ?_⟩
  · have h1 : (0 : ℚ) ≤ ((seedNum drugId % 40 : ℕ) : ℚ) := Nat.cast_nonneg _
    have h2 : (0 : ℚ) ≤ ((seedNum facilityId % 200 : ℕ) : ℚ) / 100 := by positivity
    simp only [simulatePrice]
    linarith
  · have h1 : ((seedNum drugId % 40 : ℕ) : ℚ) ≤ 39 := by exact_mod_cast hb
    have h2 : ((seedNum facilityId % 200 : ℕ) : ℚ) ≤ 199 := by exact_mod_cast hv
    have h3 : ((seedNum facilityId % 200 : ℕ) : ℚ) / 100 ≤ 199 / 100 := by
      apply div_le_div_of_nonneg_right h2
      norm_num
    simp only [simulatePrice]
    linarith
  · refine ⟨(10 + seedNum drugId % 40) * 100 + seedNum facilityId % 200, ?_⟩
    simp only [simulatePrice]
    push_cast
    ring

/-- C8: availability is the fixed three-way partition of
`hash(facilityId) mod 100`: `out_of_stock` iff the value is below 10,
`low_stock` iff it lies in [10, 35), `in_stock` iff it is at least 35. -/
theorem C8_stock_partition (facilityId : Str) :
    (simulateStock facilityId = Availability.out_of_stock ↔
        seedNum facilityId % 100 < 10) ∧
    (simulateStock facilityId = Availability.low_stock ↔
        10 ≤ seedNum facilityId % 100 ∧ seedNum facilityId % 100 < 35) ∧
    (simulateStock facilityId = Availability.in_stock ↔
        35 ≤ seedNum facilityId % 100) := by
  simp only [simulateStock]
  by_cases h10 : seedNum facilityId % 100 < 10 <;>
    by_cases h35 : seedNum facilityId % 100 < 35 <;>
    simp [h10, h35] <;> omega

/-! ## Helper definitions and pipeline lemmas -/

/-- Items of a successful response (`[]` when the request failed). -/
def itemsOf (q : Query) (e : Env) : List Item :=
  match handleSearch q e with
  | Except.ok r => r.items
  | Except.error _ => []

/-- Placeholder `SearchResult` for projecting failed requests. -/
def defaultResult : SearchResult :=
  { medName := none, rxcui := none, locationText := [], lat := 0, lon := 0,
    total := 0, items := [] }

/-- Result of a successful response (`defaultResult` when the request failed). -/
def resultOf (q : Query) (e : Env) : SearchResult :=
  match handleSearch q e with
  | Except.ok r => r
  | Except.error _ => defaultResult

/-- The distance order claimed for returned items: every item with a
present `distance_km` appears strictly before every item with an absent
one, and the present values are non-decreasing. -/
def distanceOrdered (items : List Item) : Prop :=
  List.Pairwise (fun a b => a.place.distance_km = none → b.place.distance_km = none) items ∧
  List.Sorted (· ≤ ·) ((items.map (fun i => i.place.distance_km)).reduceOption)

instance (items : List Item) : Decidable (distanceOrdered items) :=
  inferInstanceAs (Decidable (_ ∧ _))

/-- The biconditional invariant claimed for `DrugResolution`. -/
def resolutionInvariant (d : DrugResolution) : Prop :=
  (d.rxcui.isSome = true ↔ d.name.isSome = true) ∧
  (d.rxcui.isSome = true ↔ d.suggestions = [])

instance (d : DrugResolution) : Decidable (resolutionInvariant d) :=
  inferInstanceAs (Decidable (_ ∧ _))

/-- The claimed range for the meters passed to `findPharmacies`:
a plain number in [1000, 50000] (`NaN` is not in range). -/
def metersInRange : JSNum → Prop
  | JSNum.nan => False
  | JSNum.num q => 1000 ≤ q ∧ q ≤ 50000

instance (n : JSNum) : Decidable (metersInRange n) :=
  match n with
  | JSNum.nan => isFalse (fun h => h)
  | JSNum.num q => inferInstanceAs (Decidable (1000 ≤ q ∧ q ≤ 50000))

/-- HTTP-status table stated by the spec's error taxonomy (to be compared
with the status the code computes). -/
def specStatus : ApiError → Nat
  | ApiError.missingMed => 400
  | ApiError.missingLocation => 400
  | ApiError.invalidMedicine _ => 400
  | ApiError.locationNotFound => 404
  | ApiError.upstream _ => 502

theorem mem_filterPriceMin {b : Option JSNum} {l : List Item} {i : Item}
    (h : i ∈ filterPriceMin b l) : i ∈ l := by
  cases b with
  | none => exact h
  | some v => exact (List.mem_filter.mp h).1

theorem mem_filterPriceMax {b : Option JSNum} {l : List Item} {i : Item}
    (h : i ∈ filterPriceMax b l) : i ∈ l := by
  cases b with
  | none => exact h
  | some v => exact (List.mem_filter.mp h).1

theorem mem_stockStepIn {s : Str} {l : List Item} {i : Item}
    (h : i ∈ stockStepIn s l) : i ∈ l := by
  unfold stockStepIn at h
  split at h
  · exact (List.mem_filter.mp h).1
  · exact h

theorem mem_stockStepLow {s : Str} {l : List Item} {i : Item}
    (h : i ∈ stockStepLow s l) : i ∈ l := by
  unfold stockStepLow at h
  split at h
  · exact (List.mem_filter.mp h).1
  · exact h

theorem mem_filterStock {s : Str} {l : List Item} {i : Item}
    (h : i ∈ filterStock s l) : i ∈ l :=
  mem_stockStepIn (mem_stockStepLow h)

theorem mem_sortItems {s : Str} {l : List Item} {i : Item} :
    i ∈ sortItems s l ↔ i ∈ l := by
  unfold sortItems
  split
  · exact List.mem_insertionSort _
  · split
    · exact List.mem_insertionSort _
    · split
      · exact List.mem_insertionSort _
      · exact Iff.rfl

theorem filterPriceMax_nil (b : Option JSNum) : filterPriceMax b [] = [] := by
  cases b <;> rfl

theorem filterStock_nil (s : Str) : filterStock s [] = [] := by
  unfold filterStock stockStepIn stockStepLow
  split <;> split <;> rfl

theorem sortItems_nil (s : Str) : sortItems s [] = [] := by
  unfold sortItems
  split <;> try rfl
  split <;> try rfl
  split <;> rfl

/-- Anatomy of every successful request: the returned items are the
enriched places passed through the two price filters, the stock filter and
the sort step, and `total` is their count. -/
theorem handleSearch_ok_shape {q : Query} {env : Env} {r : SearchResult}
    (h : handleSearch q env = Except.ok r) :
    ∃ rxcui places,
      env.places (radiusMeters (radiusKmOf q)) = Except.ok places ∧
      r.items = sortItems (sortOf q) (filterStock (stockOf q)
        (filterPriceMax q.price_max (filterPriceMin q.price_min
          (places.map (enrichPlace rxcui))))) ∧
      r.total = r.items.length := by
  simp only [handleSearch] at h
  by_cases h1 : medOf q = []
  · simp only [h1, if_true] at h
    exact (Except.noConfusion h)
  · simp only [if_neg h1] at h
    by_cases h2 : locationOf q = []
    · simp only [h2, if_true] at h
      exact (Except.noConfusion h)
    · simp only [if_neg h2] at h
      cases hrx : rxnormLookup (medOf q) env with
      | error e => rw [hrx] at h; exact (Except.noConfusion h)
      | ok drug =>
        rw [hrx] at h
        by_cases h3 : strFalsy drug.rxcui = true
        · simp only [h3, if_true] at h
          exact (Except.noConfusion h)
        · simp only [if_neg h3] at h
          cases hgeo : env.geocode with
          | error e => rw [hgeo] at h; exact (Except.noConfusion h)
          | ok og =>
            rw [hgeo] at h
            cases og with
            | none => exact (Except.noConfusion h)
            | some geo =>
              cases hpl : env.places (radiusMeters (radiusKmOf q)) with
              | error e => rw [hpl] at h; exact (Except.noConfusion h)
              | ok places =>
                rw [hpl] at h
                cases h
                exact ⟨_, _, rfl, rfl, rfl⟩

/-! ## Sort-order lemmas -/

theorem sortItems_distance_sorted (l : List Item) :
    List.Sorted distLe (sortItems (ofStr "distance") l) := by
  unfold sortItems
  rw [if_neg (by decide), if_neg (by decide), if_pos rfl]
  exact List.sorted_insertionSort distLe l

theorem distKey_eq_top {i : Item} (h : i.place.distance_km = none) : distKey i = ⊤ := by
  simp [distKey, h]

theorem distance_none_of_distKey_top {i : Item} (h : distKey i = ⊤) :
    i.place.distance_km = none := by
  unfold distKey at h
  cases hd : i.place.distance_km with
  | none => rfl
  | some d => rw [hd] at h; exact absurd h (WithTop.coe_ne_top)

theorem distanceOrdered_of_sorted {l : List Item} (h : List.Sorted distLe l) :
    distanceOrdered l := by
  constructor
  · refine h.imp (fun {a b} hab ha => ?_)
    refine distance_none_of_distKey_top (top_le_iff.mp ?_)
    rw [← distKey_eq_top ha]
    exact hab
  · have h1 : List.Pairwise
        (fun x y : Option ℚ => ∀ u ∈ x, ∀ v ∈ y, u ≤ v)
        (l.map (fun i => i.place.distance_km)) := by
      refine h.map _ (fun a b hab u hu v hv => ?_)
      have ha : distKey a = (u : WithTop ℚ) := by simp [distKey, Option.mem_def.mp hu]
      have hb : distKey b = (v : WithTop ℚ) := by simp [distKey, Option.mem_def.mp hv]
      have := hab
      unfold distLe at this
      rw [ha, hb] at this
      exact_mod_cast this
    exact h1.filterMap id (fun a b hab u hu v hv => hab u hu v hv)

/-! ## Claim C3 -/

/-- C3: for every request sorted by distance, every returned item with a
present `distanceKm` appears strictly before every item with an absent
one, and the present values are non-decreasing. -/
theorem C3_distance_sort_order (q : Query) (env : Env) (r : SearchResult)
    (hs : sortOf q = ofStr "distance") (h : handleSearch q env = Except.ok r) :
    distanceOrdered r.items := by
  obtain ⟨rxcui, places, hpl, hitems, htot⟩ := handleSearch_ok_shape h
  rw [hitems, hs]
  exact distanceOrdered_of_sorted (sortItems_distance_sorted _)

/-! Concrete request material for witnesses and counterexamples. -/

def wPlace (id : Str) (d : Option ℚ) : Place :=
  { id := id, name := ofStr "Pharmacy", address := none, phone := none,
    distance_km := d, lat := some 42, lon := some (-71) }

def wCand : Candidate := { rxcui := ofStr "723", name := ofStr "amoxicillin" }

def wEnv (ps : List Place) : Env :=
  { drugGroups := Except.ok [[wCand]],
    suggestions := Except.ok [],
    geocode := Except.ok (some { lat := 42, lon := -71 }),
    places := fun _ => Except.ok ps }

def wQuery : Query :=
  { med := some (ofStr "Amoxicillin"), location := some (ofStr "Boston, MA"),
    radius_km := none, price_min := none, price_max := none,
    stock := none, sort := none }

def env3w : Env := wEnv [wPlace (ofStr "a") (some 2), wPlace (ofStr "b") none,
  wPlace (ofStr "c") (some 1)]

def q3w : Query := { wQuery with sort := some (ofStr "distance") }

/-- Witness for C3 at a concrete request: three facilities with distances
2 km, absent, 1 km come back distance-ordered. -/
theorem C3_witness :
    sortOf q3w = ofStr "distance" ∧
    handleSearch q3w env3w = Except.ok (resultOf q3w env3w) ∧
    distanceOrdered (resultOf q3w env3w).items :=
  ⟨by decide, rfl, C3_distance_sort_order q3w env3w (resultOf q3w env3w) (by decide) rfl⟩

/-! ## Claim C2 -/

def env2cex : Env := wEnv [wPlace (ofStr "a") (some 5), wPlace (ofStr "b") (some 1)]

def q2cex : Query := { wQuery with sort := some (ofStr "nearest") }

/-- C2 counterexample: a request whose `sort` value `"nearest"` is neither
`price_asc` nor `price_desc` succeeds, yet its items are NOT in distance
order (the code applies no sort at all for unrecognized values). -/
theorem C2_counterexample_unrecognized_sort :
    sortOf q2cex ≠ ofStr "price_asc" ∧ sortOf q2cex ≠ ofStr "price_desc" ∧
    handleSearch q2cex env2cex = Except.ok (resultOf q2cex env2cex) ∧
    ¬ distanceOrdered (resultOf q2cex env2cex).items :=
  ⟨by decide, by decide, rfl, by decide⟩

/-- C2 as amended: a request with `sort` omitted defaults to the string
`distance`; sorting with the `distance` key yields the distance order; but
any `sort` value other than the three recognized ones applies no sorting —
the items keep their post-filter order. -/
theorem C2_amended_sort_fallback (q : Query) (s : Str) (items : List Item)
    (hq : q.sort = none)
    (ha : s ≠ ofStr "price_asc") (hd : s ≠ ofStr "price_desc")
    (hdist : s ≠ ofStr "distance") :
    sortOf q = ofStr "distance" ∧ sortItems s items = items ∧
    distanceOrdered (sortItems (ofStr "distance") items) := by
  refine ⟨?_, ?_, distanceOrdered_of_sorted (sortItems_distance_sorted _)⟩
  · rw [sortOf, hq]; rfl
  · unfold sortItems
    rw [if_neg ha, if_neg hd, if_neg hdist]

def w2item : Item :=
  { place := wPlace (ofStr "w") (some 3), price_usd := 12, availability := Availability.in_stock }

/-- Witness for the amended C2 at a concrete sort value and item list. -/
theorem C2_amended_witness :
    sortOf { wQuery with sort := none } = ofStr "distance" ∧
    sortItems (ofStr "nearest") [w2item] = [w2item] ∧
    distanceOrdered (sortItems (ofStr "distance") [w2item]) :=
  C2_amended_sort_fallback { wQuery with sort := none } (ofStr "nearest") [w2item]
    rfl (by decide) (by decide) (by decide)

/-! ## Claim C4 -/

def env4cex : Env :=
  { drugGroups := Except.ok [],
    suggestions := Except.ok [],
    geocode := Except.ok none,
    places := fun _ => Except.ok [] }

/-- C4 counterexample: when the drugs lookup returns no concept group and
the spelling-suggestion lookup returns an empty list, the resolver returns
`{rxcui: null, name: null, suggestions: []}` — canonicalId is absent yet
the suggestions sequence is empty, violating the claimed biconditional. -/
theorem C4_counterexample_empty_suggestions :
    rxnormLookup (ofStr "zzzz") env4cex =
      Except.ok { rxcui := none, name := none, suggestions := [] } ∧
    ¬ resolutionInvariant { rxcui := none, name := none, suggestions := [] } :=
  ⟨rfl, by decide⟩

/-- C4 as amended: canonicalId is present iff canonicalName is present;
when canonicalId is present the suggestions sequence is empty; when it is
absent the suggestions are exactly the provider's spelling-suggestion list
— which may itself be empty. -/
theorem C4_amended_resolution_invariant (med : Str) (env : Env) (d : DrugResolution)
    (h : rxnormLookup med env = Except.ok d) :
    (d.rxcui.isSome = true ↔ d.name.isSome = true) ∧
    (d.rxcui.isSome = true → d.suggestions = []) ∧
    (d.rxcui = none → env.suggestions = Except.ok d.suggestions) := by
  simp only [rxnormLookup] at h
  repeat' split at h
  all_goals first
    | exact (Except.noConfusion h)
    | (cases h; exact ⟨by simp, fun _ => rfl, fun hx => by simp at hx⟩)
    | (cases h; exact ⟨by simp, fun hx => by simp at hx, fun _ => by assumption⟩)

def env4w : Env := wEnv []

/-- Witness for the amended C4: a successful resolution of a matched
medicine satisfies the amended invariant. -/
theorem C4_amended_witness :
    rxnormLookup (ofStr "amoxicillin") env4w =
      Except.ok { rxcui := some (ofStr "723"), name := some (ofStr "amoxicillin"),
                  suggestions := [] } ∧
    ((some (ofStr "723") : Option Str).isSome = true ↔
      (some (ofStr "amoxicillin") : Option Str).isSome = true) ∧
    ((some (ofStr "723") : Option Str).isSome = true →
      ([] : List Str) = []) :=
  ⟨rfl,
   (C4_amended_resolution_invariant (ofStr "amoxicillin") env4w
      { rxcui := some (ofStr "723"), name := some (ofStr "amoxicillin"),
        suggestions := [] } rfl).1,
   fun _ => rfl⟩

/-! ## Claim C5 -/

def q5cex : Query := { wQuery with radius_km := some JSNum.nan }

/-- C5 counterexample: a `radius_km` query value whose `Number(...)`
conversion is `NaN` (e.g. `radius_km=abc`) passes `NaN` meters to the
facility search — `Math.max(1000, Math.min(50000, NaN))` is `NaN`, which
is not in [1000, 50000]. -/
theorem C5_counterexample_nan_radius :
    radiusMeters (radiusKmOf q5cex) = JSNum.nan ∧
    ¬ metersInRange (radiusMeters (radiusKmOf q5cex)) :=
  ⟨rfl, by decide⟩

/-- C5 as amended: for every numeric `radius_km` value the meters passed
upstream are `max(1000, min(50000, radiusKm·1000))`, which lies in
[1000, 50000]; in particular 0 km clamps to 1000 m, 1000 km clamps to
50000 m, and an absent `radius_km` defaults to 10 km = 10000 m.  Only a
non-numeric (`NaN`) input escapes the range. -/
theorem C5_amended_radius_clamp (x : ℚ) (q : Query) (hq : q.radius_km = none) :
    radiusMeters (JSNum.num x) = JSNum.num (max 1000 (min 50000 (x * 1000))) ∧
    metersInRange (radiusMeters (JSNum.num x)) ∧
    radiusMeters (JSNum.num 0) = JSNum.num 1000 ∧
    radiusMeters (JSNum.num 1000) = JSNum.num 50000 ∧
    radiusMeters (radiusKmOf q) = JSNum.num 10000 := by
  refine ⟨rfl, ?_, ?_, ?_, ?_⟩
  · show (1000 : ℚ) ≤ max 1000 (min 50000 (x * 1000)) ∧
        max 1000 (min 50000 (x * 1000)) ≤ 50000
    exact ⟨le_max_left _ _, max_le (by norm_num) (min_le_left _ _)⟩
  · show JSNum.num (max 1000 (min 50000 (0 * 1000))) = JSNum.num 1000
    norm_num
  · show JSNum.num (max 1000 (min 50000 (1000 * 1000))) = JSNum.num 50000
    norm_num
  · rw [radiusKmOf, hq]
    show JSNum.num (max 1000 (min 50000 (10 * 1000))) = JSNum.num 10000
    norm_num

/-! ## Claim C6 -/

/-- C6: on every successful request, a numeric `price_min` lower-bounds
every returned item's price, a numeric `price_max` upper-bounds it, and
`total` equals the number of returned items. -/
theorem C6_price_bounds_and_total (q : Query) (env : Env) (r : SearchResult)
    (h : handleSearch q env = Except.ok r) :
    (∀ bound : ℚ, q.price_min = some (JSNum.num bound) →
        ∀ i ∈ r.items, bound ≤ i.price_usd) ∧
    (∀ bound : ℚ, q.price_max = some (JSNum.num bound) →
        ∀ i ∈ r.items, i.price_usd ≤ bound) ∧
    r.total = r.items.length := by
  obtain ⟨rxcui, places, hpl, hitems, htot⟩ := handleSearch_ok_shape h
  refine ⟨?_, ?_, htot⟩
  · intro bound hb i hi
    rw [hitems] at hi
    have hi3 := mem_filterPriceMax (mem_filterStock (mem_sortItems.mp hi))
    rw [hb] at hi3
    simp only [filterPriceMin] at hi3
    have := (List.mem_filter.mp hi3).2
    simpa [jsGeNum] using this
  · intro bound hb i hi
    rw [hitems] at hi
    have hi2 := mem_filterStock (mem_sortItems.mp hi)
    rw [hb] at hi2
    simp only [filterPriceMax] at hi2
    have := (List.mem_filter.mp hi2).2
    simpa [jsLeNum] using this

def q6w : Query :=
  { wQuery with
    price_min := some (JSNum.num 26.975)
    price_max := some (JSNum.num 60)
    sort := some (ofStr "price_asc") }

def env6w : Env := wEnv [wPlace (ofStr "a") (some 5), wPlace (ofStr "b") (some 1),
  wPlace (ofStr "c") none]

/-- Witness for C6 at a concrete request with both bounds set. -/
theorem C6_witness :
    handleSearch q6w env6w = Except.ok (resultOf q6w env6w) ∧
    (∀ i ∈ (resultOf q6w env6w).items, (26.975 : ℚ) ≤ i.price_usd) ∧
    (∀ i ∈ (resultOf q6w env6w).items, i.price_usd ≤ (60 : ℚ)) ∧
    (resultOf q6w env6w).total = (resultOf q6w env6w).items.length :=
  ⟨rfl,
   (C6_price_bounds_and_total q6w env6w (resultOf q6w env6w) rfl).1 26.975 rfl,
   (C6_price_bounds_and_total q6w env6w (resultOf q6w env6w) rfl).2.1 60 rfl,
   (C6_price_bounds_and_total q6w env6w (resultOf q6w env6w) rfl).2.2⟩

/-! ## Claim C7 -/

theorem filterStock_in_stock (l : List Item) :
    filterStock (ofStr "in_stock") l =
      l.filter (fun i => i.availability = Availability.in_stock) := by
  unfold filterStock stockStepIn stockStepLow
  rw [if_pos rfl, if_neg (show ofStr "in_stock" ≠ ofStr "low_stock" by decide)]

theorem filterStock_low_stock (l : List Item) :
    filterStock (ofStr "low_stock") l =
      l.filter (fun i => i.availability = Availability.low_stock) := by
  unfold filterStock stockStepIn stockStepLow
  rw [if_neg (show ofStr "low_stock" ≠ ofStr "in_stock" by decide), if_pos rfl]

theorem filterStock_other {s : Str} (h1 : s ≠ ofStr "in_stock")
    (h2 : s ≠ ofStr "low_stock") (l : List Item) : filterStock s l = l := by
  unfold filterStock stockStepIn stockStepLow
  rw [if_neg h1, if_neg h2]

/-- C7: on every successful request with stock filter `in_stock` or
`low_stock`, every returned item's availability equals the filter exactly;
for `any` or any other value the stock-filter step removes nothing. -/
theorem C7_stock_filter_exact (q : Query) (env : Env) (r : SearchResult)
    (h : handleSearch q env = Except.ok r) :
    (stockOf q = ofStr "in_stock" →
        ∀ i ∈ r.items, i.availability = Availability.in_stock) ∧
    (stockOf q = ofStr "low_stock" →
        ∀ i ∈ r.items, i.availability = Availability.low_stock) ∧
    (∀ s l, s ≠ ofStr "in_stock" → s ≠ ofStr "low_stock" →
        filterStock s l = l) := by
  obtain ⟨rxcui, places, hpl, hitems, htot⟩ := handleSearch_ok_shape h
  refine ⟨?_, ?_, fun s l h1 h2 => filterStock_other h1 h2 l⟩
  · intro hs i hi
    rw [hitems, hs] at hi
    have hi2 := mem_sortItems.mp hi
    rw [filterStock_in_stock] at hi2
    have := (List.mem_filter.mp hi2).2
    simpa using this
  · intro hs i hi
    rw [hitems, hs] at hi
    have hi2 := mem_sortItems.mp hi
    rw [filterStock_low_stock] at hi2
    have := (List.mem_filter.mp hi2).2
    simpa using this

def q7w : Query := { wQuery with stock := some (ofStr "low_stock") }

def env7w : Env := wEnv [wPlace (ofStr "a") (some 5), wPlace (ofStr "k") (some 1)]

/-- Witness for C7 at a concrete request filtering for `low_stock`. -/
theorem C7_witness :
    stockOf q7w = ofStr "low_stock" ∧
    handleSearch q7w env7w = Except.ok (resultOf q7w env7w) ∧
    (∀ i ∈ (resultOf q7w env7w).items, i.availability = Availability.low_stock) ∧
    filterStock (ofStr "any") [w2item] = [w2item] :=
  ⟨by decide, rfl,
   (C7_stock_filter_exact q7w env7w (resultOf q7w env7w) rfl).2.1 (by decide),
   (C7_stock_filter_exact q7w env7w (resultOf q7w env7w) rfl).2.2
     (ofStr "any") [w2item] (by decide) (by decide)⟩

/-! ## Claim C9 -/

theorem rxnormLookup_error_shape {med : Str} {env : Env} {e : ApiError}
    (h : rxnormLookup med env = Except.error e) :
    ∃ ax, e = ApiError.upstream (upstreamError (ofStr "RxNorm lookup failed") ax) := by
  simp only [rxnormLookup] at h
  repeat' split at h
  all_goals first
    | exact (Except.noConfusion h)
    | (cases h; exact ⟨_, rfl⟩)

/-- Every failing request fails with exactly one of the five error
outcomes, and the upstream ones always carry a fresh wrapper error. -/
theorem handleSearch_error_shape {q : Query} {env : Env} {e : ApiError}
    (h : handleSearch q env = Except.error e) :
    (e = ApiError.missingMed ∧ medOf q = []) ∨
    (e = ApiError.missingLocation ∧ locationOf q = []) ∨
    (∃ suggs, e = ApiError.invalidMedicine suggs) ∨
    e = ApiError.locationNotFound ∨
    (∃ msg ax, e = ApiError.upstream (upstreamError msg ax)) := by
  simp only [handleSearch] at h
  by_cases h1 : medOf q = []
  · simp only [h1, if_true] at h
    cases h
    exact Or.inl ⟨rfl, h1⟩
  · simp only [if_neg h1] at h
    by_cases h2 : locationOf q = []
    · simp only [h2, if_true] at h
      cases h
      exact Or.inr (Or.inl ⟨rfl, h2⟩)
    · simp only [if_neg h2] at h
      cases hrx : rxnormLookup (medOf q) env with
      | error e2 =>
          rw [hrx] at h
          cases h
          obtain ⟨ax, hax⟩ := rxnormLookup_error_shape hrx
          exact Or.inr (Or.inr (Or.inr (Or.inr ⟨_, ax, hax⟩)))
      | ok drug =>
          rw [hrx] at h
          by_cases h3 : strFalsy drug.rxcui = true
          · simp only [h3, if_true] at h
            cases h
            exact Or.inr (Or.inr (Or.inl ⟨_, rfl⟩))
          · simp only [if_neg h3] at h
            cases hgeo : env.geocode with
            | error e3 =>
                rw [hgeo] at h
                cases h
                exact Or.inr (Or.inr (Or.inr (Or.inr ⟨_, _, rfl⟩)))
            | ok og =>
                rw [hgeo] at h
                cases og with
                | none =>
                    cases h
                    exact Or.inr (Or.inr (Or.inr (Or.inl rfl)))
                | some geo =>
                    cases hpl : env.places (radiusMeters (radiusKmOf q)) with
                    | error e4 =>
                        rw [hpl] at h
                        cases h
                        exact Or.inr (Or.inr (Or.inr (Or.inr ⟨_, _, rfl⟩)))
                    | ok places =>
                        rw [hpl] at h
                        exact (Except.noConfusion h)

/-- C9: every request either succeeds (HTTP 200) or fails with exactly one
error outcome whose HTTP status matches the claimed taxonomy — 400 for a
missing parameter (raised exactly when the trimmed `med`/`location` is
empty), 400 for an invalid medicine (whose response carries the
suggestions), 404 for an unresolved location, and 502 for every upstream
failure (the catch-block wrapper carries no `response`, so `extractError`
always lands in its 502 branch). -/
theorem C9_error_status_mapping (q : Query) (env : Env) :
    (∀ r, handleSearch q env = Except.ok r → apiStatus (handleSearch q env) = 200) ∧
    (∀ e, handleSearch q env = Except.error e →
      apiStatus (handleSearch q env) = specStatus e ∧
      (∀ s, e = ApiError.invalidMedicine s → (respondError e).suggestions = some s) ∧
      (e = ApiError.missingMed → medOf q = []) ∧
      (e = ApiError.missingLocation → locationOf q = [])) := by
  constructor
  · intro r hr
    rw [hr]
    rfl
  · intro e he
    rw [he]
    rcases handleSearch_error_shape he with
      ⟨rfl, hm⟩ | ⟨rfl, hl⟩ | ⟨suggs, rfl⟩ | rfl | ⟨msg, ax, rfl⟩
    · refine ⟨rfl, ?_, ?_, ?_⟩
      · intro s hs
        cases hs
      · intro _
        exact hm
      · intro hx
        cases hx
    · refine ⟨rfl, ?_, ?_, ?_⟩
      · intro s hs
        cases hs
      · intro hx
        cases hx
      · intro _
        exact hl
    · refine ⟨rfl, ?_, ?_, ?_⟩
      · intro s hs
        cases hs
        rfl
      · intro hx
        cases hx
      · intro hx
        cases hx
    · refine ⟨rfl, ?_, ?_, ?_⟩
      · intro s hs
        cases hs
      · intro hx
        cases hx
      · intro hx
        cases hx
    · refine ⟨rfl, ?_, ?_, ?_⟩
      · intro s hs
        cases hs
      · intro hx
        cases hx
      · intro hx
        cases hx

def ax9 : AxiosErr := { response := some (404, ofStr "upstream body"), message := ofStr "Request failed" }

def env9w : Env :=
  { drugGroups := Except.ok [[wCand]]
    suggestions := Except.ok []
    geocode := Except.error ax9
    places := fun _ => Except.ok [] }

/-- Witness for C9 at a concrete failing request: a geocoding failure whose
axios error even carries a 404 response still surfaces as a 502, because
the wrapper created by `upstreamError` has no `response` field. -/
theorem C9_witness :
    handleSearch wQuery env9w =
      Except.error (ApiError.upstream (upstreamError (ofStr "Geocoding failed") ax9)) ∧
    apiStatus (handleSearch wQuery env9w) =
      specStatus (ApiError.upstream (upstreamError (ofStr "Geocoding failed") ax9)) ∧
    apiStatus (handleSearch wQuery env9w) = 502 :=
  ⟨rfl, ((C9_error_status_mapping wQuery env9w).2 _ rfl).1, rfl⟩

/-! ## Claim C10 -/

/-- C10: a `price_min` or `price_max` supplied as a non-empty string that
does not parse to a number becomes `NaN`; every item fails the comparison
against it, so a successful request returns no items and total 0 — the
malformed bound filters everything out instead of being ignored or
rejected. -/
theorem C10_nan_bound_empties_results (q : Query) (env : Env) (r : SearchResult)
    (hnan : q.price_min = some JSNum.nan ∨ q.price_max = some JSNum.nan)
    (h : handleSearch q env = Except.ok r) :
    r.items = [] ∧ r.total = 0 := by
  obtain ⟨rxcui, places, hpl, hitems, htot⟩ := handleSearch_ok_shape h
  have hempty : filterStock (stockOf q) (filterPriceMax q.price_max
      (filterPriceMin q.price_min (places.map (enrichPlace rxcui)))) = [] := by
    rcases hnan with hmin | hmax
    · rw [hmin]
      have h1 : filterPriceMin (some JSNum.nan) (places.map (enrichPlace rxcui)) = [] := by
        simp [filterPriceMin, jsGeNum, List.filter_eq_nil_iff]
      rw [h1, filterPriceMax_nil, filterStock_nil]
    · rw [hmax]
      have h1 : filterPriceMax (some JSNum.nan)
          (filterPriceMin q.price_min (places.map (enrichPlace rxcui))) = [] := by
        simp [filterPriceMax, jsLeNum, List.filter_eq_nil_iff]
      rw [h1, filterStock_nil]
  have hni : r.items = [] := by rw [hitems, hempty, sortItems_nil]
  refine ⟨hni, ?_⟩
  rw [htot, hni]
  rfl

def q10w : Query := { wQuery with price_min := some JSNum.nan }

/-- Witness for C10 at a concrete request: `price_min` parsed to `NaN`
still succeeds, with zero items and total 0, against an environment that
returns three facilities. -/
theorem C10_witness :
    q10w.price_min = some JSNum.nan ∧
    handleSearch q10w env3w = Except.ok (resultOf q10w env3w) ∧
    (resultOf q10w env3w).items = [] ∧
    (resultOf q10w env3w).total = 0 :=
  ⟨rfl, rfl,
   (C10_nan_bound_empties_results q10w env3w (resultOf q10w env3w) (Or.inl rfl) rfl).1,
   (C10_nan_bound_empties_results q10w env3w (resultOf q10w env3w) (Or.inl rfl) rfl).2⟩

/-- Witness for the amended C5 at radius 7 km and a query with an absent
`radius_km` parameter. -/
theorem C5_amended_witness :
    metersInRange (radiusMeters (JSNum.num 7)) ∧
    radiusMeters (JSNum.num 0) = JSNum.num 1000 ∧
    radiusMeters (JSNum.num 1000) = JSNum.num 50000 ∧
    radiusMeters (radiusKmOf wQuery) = JSNum.num 10000 :=
  ⟨(C5_amended_radius_clamp 7 wQuery rfl).2.1,
   (C5_amended_radius_clamp 7 wQuery rfl).2.2.1,
   (C5_amended_radius_clamp 7 wQuery rfl).2.2.2.1,
   (C5_amended_radius_clamp 7 wQuery rfl).2.2.2.2⟩
